import Mathlib

set_option maxHeartbeats 1000000

/-
Verification development for the compose-apps-exporter metrics pipeline.

The definitions below are a shallow embedding of `src/main.rs`:
  - pure Rust functions become Lean functions with the same names;
  - the external inputs of the pipeline (the filesystem entries matched by the
    configured globs, and the per-path results of the two orchestration-tool
    invocations) are passed in as explicit values, since obtaining them is I/O;
  - the Rust `panic!` in `config_paths_from_globs` is modelled as a distinct
    outcome constructor (`panicked`), separate from a recoverable `Result::Err`
    (`failure`), because a panic unwinds past the `Ok`/`Err` match in
    `handle_request` instead of producing the 500 response of the `Err` branch;
  - machine integers (`u16` port, `u8` metric values) are modelled as `Nat`;
    every value involved is far below any overflow boundary.
-/

/- ## Data model (structs `ComposeService`, `ComposeConfig`, `Container`) -/

structure ComposeService where
  container_name : String
  deriving DecidableEq

/-- `services` is a Rust `HashMap<String, ComposeService>`; it is modelled as an
association list with the service name as first component.  Iteration order of
the Rust map is arbitrary, and no claim below depends on the order. -/
structure ComposeConfig where
  name : String
  services : List (String × ComposeService)
  deriving DecidableEq

structure Container where
  name : String
  state : String
  health : String
  deriving DecidableEq

/- ## Metric line construction -/

def STATE_NOT_UP : String := "not_up"

def STATE_HEALTH_NO_CHECK : String := "no_check"

def POSSIBLE_STATES_STATE : List String :=
  [STATE_NOT_UP, "created", "restarting", "running", "removing", "paused", "exited", "dead"]

def POSSIBLE_STATES_HEALTH : List String :=
  [STATE_NOT_UP, "no_check", "starting", "healthy", "unhealthy"]

/-- Embeds `service_metric_to_string`: renders one metric line
with the metric name, the label pairs, and the numeric value. -/
def service_metric_to_string (compose_name service_name metric_name : String)
    (extra_labels : List (String × String)) (value : Nat) : String :=
  let labels := [("compose_name", compose_name), ("service_name", service_name)] ++ extra_labels
  let labels_str := String.intercalate "," (labels.map (fun kv => kv.1 ++ "=\"" ++ kv.2 ++ "\""))
  "compose_service_" ++ metric_name ++ "\x7b" ++ labels_str ++ "\x7d " ++ toString value

/-- Embeds `service_state_metric_to_strings`: one line per possible value,
value `1` where it equals the effective value and `0` elsewhere. -/
def service_state_metric_to_strings (compose_name service_name metric_name : String)
    (possible_values : List String) (value : String) : List String :=
  possible_values.map (fun possible_value =>
    service_metric_to_string compose_name service_name metric_name
      [("state", possible_value)] (if value == possible_value then 1 else 0))

/- ## Effective state/health resolution (body of `config_and_containers_to_metrics`) -/

/-- The `running_containers.iter().find(...)` lookup by exact container name. -/
def find_container (running_containers : List Container) (container_name : String) :
    Option Container :=
  running_containers.find? (fun container => container.name == container_name)

/-- `container.map_or(STATE_NOT_UP, |c| &c.state)` from the source. -/
def effective_state (running_containers : List Container) (container_name : String) : String :=
  match find_container running_containers container_name with
  | none => STATE_NOT_UP
  | some c => c.state

/-- The `match container.map(|c| c.health.as_str())` from the source:
no container gives `not_up`, an empty health string gives `no_check`, otherwise
the reported health string is passed through. -/
def effective_health (running_containers : List Container) (container_name : String) : String :=
  match find_container running_containers container_name with
  | none => STATE_NOT_UP
  | some c => if c.health == "" then STATE_HEALTH_NO_CHECK else c.health

/-- The per-service block built inside the `flat_map` of
`config_and_containers_to_metrics`: first the 5 health lines, then the 8 state
lines (the source appends the state block onto the health block). -/
def service_metric_lines (compose_name service_name : String) (svc : ComposeService)
    (running_containers : List Container) : List String :=
  service_state_metric_to_strings compose_name service_name "health" POSSIBLE_STATES_HEALTH
      (effective_health running_containers svc.container_name)
    ++ service_state_metric_to_strings compose_name service_name "state" POSSIBLE_STATES_STATE
      (effective_state running_containers svc.container_name)

/-- The flat list of metric lines of `config_and_containers_to_metrics`, before
the final newline join. -/
def config_and_containers_to_metric_lines (compose_config : ComposeConfig)
    (running_containers : List Container) : List String :=
  compose_config.services.flatMap
    (fun p => service_metric_lines compose_config.name p.1 p.2 running_containers)

/-- Embeds `config_and_containers_to_metrics`. -/
def config_and_containers_to_metrics (compose_config : ComposeConfig)
    (running_containers : List Container) : String :=
  String.intercalate "\n" (config_and_containers_to_metric_lines compose_config running_containers)

/- ## Aggregation and rendering (`get_metrics_for_configs_paths`, `handle_request`) -/

/-- The `indoc!` comment block prepended by `get_metrics_for_configs_paths`.
Note it declares the families `compose_service_up` and `compose_service_health`. -/
def config_metrics_comment : String :=
  "# HELP compose_service_up Whether the docker compose services\x27s status is \x27Up\x27 (as opposed to e.g. \x27Restarting\x27)\n# TYPE compose_service_up gauge\n# HELP compose_service_health Whether the docker compose services\x27s health is \x27healthy\x27\n# TYPE compose_service_health gauge\n"

/-- The `format!(indoc!...)` block for the `compose_apps_nbro_configs` gauge;
the `indoc!` literal ends with a newline. -/
def nbro_configs_metric (nbro_config_paths : Nat) : String :=
  "# HELP compose_apps_nbro_configs Number of docker-compose apps\n# TYPE compose_apps_nbro_configs gauge\ncompose_apps_nbro_configs "
    ++ toString nbro_config_paths ++ "\n"

/-- Embeds the success path of `get_metrics_for_configs_paths`.  In the source
each config path is resolved by two external-process calls into a
`ComposeConfig` and a list of running `Container`s; here the resolved pairs are
passed in directly, one per config path, so `apps.length` is the
`nbro_config_paths` of the source. -/
def get_metrics_for_configs_paths (apps : List (ComposeConfig × List Container)) : String :=
  let config_metrics :=
    String.intercalate "\n" (apps.map (fun app => config_and_containers_to_metrics app.1 app.2))
  config_metrics_comment ++ config_metrics ++ "\n" ++ nbro_configs_metric apps.length

/-- The body `handle_request` sends for a successful `GET /metrics`:
the rendered metrics with one extra newline character pushed onto the end. -/
def metrics_response_body (apps : List (ComposeConfig × List Container)) : String :=
  get_metrics_for_configs_paths apps ++ "\n"

/- ## App locator and request handling with the panic outcome -/

/-- The kind of a filesystem entry matched by a glob, as tested by
`path.is_dir()` / `path.is_file()`; `other` covers entries that are neither
(e.g. a broken symlink, for which both tests return false). -/
inductive FsKind
  | file
  | dir
  | other
  deriving DecidableEq

structure FsEntry where
  path : String
  kind : FsKind
  deriving DecidableEq

/-- Result of the path-resolution loop in `config_paths_from_globs`: either the
resolved config file paths, or the `panic!("Invalid path: ...")` the source
raises at the first entry that is neither a file nor a directory. -/
inductive GlobResolution
  | ok (paths : List String)
  | panicked (msg : String)
  deriving DecidableEq

/-- Embeds the second loop of `config_paths_from_globs` (the first loop merely
expands the globs into `entries`, which is filesystem I/O and is passed in):
a directory gets `docker-compose.yml` appended, a file is used as-is, anything
else panics. -/
def config_paths_from_globs : List FsEntry → GlobResolution
  | [] => .ok []
  | e :: rest =>
    match e.kind with
    | .dir =>
      match config_paths_from_globs rest with
      | .ok paths => .ok ((e.path ++ "/docker-compose.yml") :: paths)
      | .panicked msg => .panicked msg
    | .file =>
      match config_paths_from_globs rest with
      | .ok paths => .ok (e.path :: paths)
      | .panicked msg => .panicked msg
    | .other => .panicked ("Invalid path: " ++ e.path)

/-- The per-path `get_metrics_for_config_path` calls collected with
`collect::<Result<...>>`: the first error aborts the whole aggregation.
`lookup` models the two external-process invocations for one config path. -/
def collect_apps (lookup : String → Except String (ComposeConfig × List Container)) :
    List String → Except String (List (ComposeConfig × List Container))
  | [] => .ok []
  | p :: rest =>
    match lookup p with
    | .error e => .error e
    | .ok app =>
      match collect_apps lookup rest with
      | .error e => .error e
      | .ok apps => .ok (app :: apps)

/-- Outcome of one scrape derivation: a rendered body, a recoverable error
(`Result::Err` in the source), or a panic (which is not a `Result::Err`). -/
inductive ScrapeOutcome
  | success (body : String)
  | failure (msg : String)
  | panicked (msg : String)
  deriving DecidableEq

/-- Embeds `get_metrics_for_config_globs` over the modelled inputs. -/
def get_metrics_for_config_globs (entries : List FsEntry)
    (lookup : String → Except String (ComposeConfig × List Container)) : ScrapeOutcome :=
  match config_paths_from_globs entries with
  | .panicked msg => .panicked msg
  | .ok paths =>
    match collect_apps lookup paths with
    | .error e => .failure e
    | .ok apps => .success (get_metrics_for_configs_paths apps)

/-- The observable HTTP-level result of `GET /metrics` in `handle_request`.
`panicked` records that the panic unwinds past the match on `Ok`/`Err` in the handler:
the `Err` arm (status 500 with the fixed error body) is never reached, and no
metrics body is produced. -/
inductive HttpResponse
  | okBody (body : String)
  | internalServerError (body : String)
  | panicked (msg : String)
  deriving DecidableEq

/-- Embeds the `(GET, "/metrics")` arm of `handle_request`. -/
def handle_metrics_request (entries : List FsEntry)
    (lookup : String → Except String (ComposeConfig × List Container)) : HttpResponse :=
  match get_metrics_for_config_globs entries lookup with
  | .success metrics => .okBody (metrics ++ "\n")
  | .failure _ => .internalServerError "Internal server error. Check logs for details."
  | .panicked msg => .panicked msg

/- ## Configuration resolution (`get_config`) -/

/-- One configuration source before merging: each field may or may not be set.
`port` is the Rust `u16`, modelled as `Nat` (all values involved are small). -/
structure ConfigLayer where
  compose_configs_glob : Option (List String) := none
  port : Option Nat := none
  address : Option String := none
  deriving DecidableEq

/-- Figment `merge`: the overlay provider takes precedence over what the
figment already holds. -/
def figment_merge (base overlay : ConfigLayer) : ConfigLayer where
  compose_configs_glob := overlay.compose_configs_glob.orElse (fun _ => base.compose_configs_glob)
  port := overlay.port.orElse (fun _ => base.port)
  address := overlay.address.orElse (fun _ => base.address)

/-- Figment `join`: the existing figment values take precedence; the joined
provider only fills fields that are still missing. -/
def figment_join (base under : ConfigLayer) : ConfigLayer where
  compose_configs_glob := base.compose_configs_glob.orElse (fun _ => under.compose_configs_glob)
  port := base.port.orElse (fun _ => under.port)
  address := base.address.orElse (fun _ => under.address)

/-- The clap defaults from the `#[arg(...)]` attributes of `Config`. -/
def CLI_DEFAULT_GLOB : List String := ["/etc/compose-apps/*"]

def CLI_DEFAULT_PORT : Nat := 9179

def CLI_DEFAULT_ADDRESS : String := "127.0.0.1"

/-- The command line as supplied by the user: `none` means the flag was omitted
(clap then fills the default, with `ValueSource::DefaultValue`). -/
structure CliArgs where
  compose_configs_glob : Option (List String)
  port : Option Nat
  address : Option String

/-- `cli_args` in the source: every field populated, defaults filled in by clap
for omitted flags. -/
def cli_args_with_defaults (cli : CliArgs) : ConfigLayer where
  compose_configs_glob := some (cli.compose_configs_glob.getD CLI_DEFAULT_GLOB)
  port := some (cli.port.getD CLI_DEFAULT_PORT)
  address := some (cli.address.getD CLI_DEFAULT_ADDRESS)

/-- `cli_args_without_defaults` in the source: only the fields whose
`value_source` is not `ValueSource::DefaultValue`, i.e. exactly the
user-supplied ones. -/
def cli_args_without_defaults (cli : CliArgs) : ConfigLayer where
  compose_configs_glob := cli.compose_configs_glob
  port := cli.port
  address := cli.address

/-- The fully-populated `Config` produced by `.extract::<Config>()`. -/
structure Config where
  compose_configs_glob : List String
  port : Nat
  address : String
  deriving DecidableEq

/-- `.extract::<Config>()`: fails unless every field is present. -/
def figment_extract (p : ConfigLayer) : Option Config :=
  match p.compose_configs_glob, p.port, p.address with
  | some g, some po, some a => some ⟨g, po, a⟩
  | _, _, _ => none

/-- Embeds the figment pipeline of `get_config`:
empty figment, `merge` user file, `merge` system file, `merge` environment,
`join` the clap arguments (defaults included), `merge` the explicitly
user-supplied clap arguments, then extract. -/
def get_config (user_file system_file env : ConfigLayer) (cli : CliArgs) : Option Config :=
  figment_extract
    (figment_merge
      (figment_join
        (figment_merge (figment_merge (figment_merge {} user_file) system_file) env)
        (cli_args_with_defaults cli))
      (cli_args_without_defaults cli))

/- ## Observation helpers (not from the source; used to state properties) -/

/-- The value of an emitted metric line, read off its last character: every
line produced by `service_metric_to_string` ends in `" 0"` or `" 1"`. -/
def line_value_is_one (line : String) : Bool :=
  line.data.getLast? == some '1'

def line_value_is_zero (line : String) : Bool :=
  line.data.getLast? == some '0'

/-- Split a character list at newlines (observation helper for line claims). -/
def split_lines : List Char → List (List Char)
  | [] => [[]]
  | c :: rest =>
    if c == '\n' then [] :: split_lines rest
    else
      match split_lines rest with
      | [] => [[c]]
      | l :: ls => (c :: l) :: ls

def body_lines (s : String) : List String :=
  (split_lines s.data).map (fun l => String.mk l)

def starts_with_chars : List Char → List Char → Bool
  | [], _ => true
  | _ :: _, [] => false
  | a :: p, b :: l => a == b && starts_with_chars p l

/-- Whether the line begins with the given text. -/
def line_starts_with (line pre : String) : Bool :=
  starts_with_chars pre.data line.data

/-- Number of consecutive newline characters at the end of the string. -/
def trailing_newline_count (s : String) : Nat :=
  (s.data.reverse.takeWhile (fun c => c == '\n')).length

/- ## Helper lemmas -/

theorem digitChar_ge_16 (n : Nat) (h : 16 ≤ n) : Nat.digitChar n = '*' := by
  unfold Nat.digitChar
  iterate 16 rw [if_neg (by omega)]

theorem digitChar_ne_newline (n : Nat) : Nat.digitChar n ≠ '\n' := by
  rcases Nat.lt_or_ge n 16 with h | h
  · interval_cases n <;> decide
  · rw [digitChar_ge_16 n h]; decide

theorem toDigitsCore_mem_of (b fuel n : Nat) (ds : List Char) (c : Char)
    (hc : c ∈ Nat.toDigitsCore b fuel n ds) : c ∈ ds ∨ ∃ m, c = Nat.digitChar m := by
  induction fuel generalizing n ds with
  | zero => exact .inl hc
  | succ fuel ih =>
    simp only [Nat.toDigitsCore] at hc
    split at hc
    · rcases List.mem_cons.mp hc with h | h
      · exact .inr ⟨n % b, h⟩
      · exact .inl h
    · rcases ih _ _ hc with h | h
      · rcases List.mem_cons.mp h with h | h
        · exact .inr ⟨n % b, h⟩
        · exact .inl h
      · exact .inr h

theorem toDigitsCore_ne_nil (b fuel n : Nat) (ds : List Char) (hds : ds ≠ []) :
    Nat.toDigitsCore b fuel n ds ≠ [] := by
  induction fuel generalizing n ds with
  | zero => exact hds
  | succ fuel ih =>
    simp only [Nat.toDigitsCore]
    split
    · simp
    · exact ih _ _ (by simp)

theorem toDigits_ne_nil (n : Nat) : Nat.toDigits 10 n ≠ [] := by
  unfold Nat.toDigits
  simp only [Nat.toDigitsCore]
  split
  · simp
  · exact toDigitsCore_ne_nil _ _ _ _ (by simp)

theorem toDigits_mem_ne_newline (n : Nat) : ∀ c ∈ Nat.toDigits 10 n, c ≠ '\n' := by
  intro c hc
  rcases toDigitsCore_mem_of _ _ _ _ _ hc with h | ⟨m, rfl⟩
  · simp at h
  · exact digitChar_ne_newline m

theorem toString_nat_data (n : Nat) : (toString n).data = Nat.toDigits 10 n := rfl

theorem service_metric_to_string_eq_append (cn sn mn : String) (ls : List (String × String))
    (v : Nat) : ∃ s : String, service_metric_to_string cn sn mn ls v = s ++ toString v :=
  ⟨_, rfl⟩

theorem line_value_is_one_at_one (cn sn mn : String) (ls : List (String × String)) :
    line_value_is_one (service_metric_to_string cn sn mn ls 1) = true := by
  obtain ⟨s, hs⟩ := service_metric_to_string_eq_append cn sn mn ls 1
  rw [hs]
  show ((s ++ "1").data.getLast? == some '1') = true
  rw [String.data_append, show ("1" : String).data = ['1'] from rfl, List.getLast?_concat]
  rfl

theorem line_value_is_one_at_zero (cn sn mn : String) (ls : List (String × String)) :
    line_value_is_one (service_metric_to_string cn sn mn ls 0) = false := by
  obtain ⟨s, hs⟩ := service_metric_to_string_eq_append cn sn mn ls 0
  rw [hs]
  show ((s ++ "0").data.getLast? == some '1') = false
  rw [String.data_append, show ("0" : String).data = ['0'] from rfl, List.getLast?_concat]
  rfl

theorem line_value_is_zero_at_zero (cn sn mn : String) (ls : List (String × String)) :
    line_value_is_zero (service_metric_to_string cn sn mn ls 0) = true := by
  obtain ⟨s, hs⟩ := service_metric_to_string_eq_append cn sn mn ls 0
  rw [hs]
  show ((s ++ "0").data.getLast? == some '0') = true
  rw [String.data_append, show ("0" : String).data = ['0'] from rfl, List.getLast?_concat]
  rfl

theorem line_value_is_zero_at_one (cn sn mn : String) (ls : List (String × String)) :
    line_value_is_zero (service_metric_to_string cn sn mn ls 1) = false := by
  obtain ⟨s, hs⟩ := service_metric_to_string_eq_append cn sn mn ls 1
  rw [hs]
  show ((s ++ "1").data.getLast? == some '0') = false
  rw [String.data_append, show ("1" : String).data = ['1'] from rfl, List.getLast?_concat]
  rfl

theorem map_line_value_is_one_smts (cn sn mn : String) (pvs : List String) (v : String) :
    (service_state_metric_to_strings cn sn mn pvs v).map line_value_is_one
      = pvs.map (fun pv => v == pv) := by
  unfold service_state_metric_to_strings
  rw [List.map_map]
  apply List.map_congr_left
  intro pv _
  cases hv : v == pv <;>
    simp [Function.comp, hv, line_value_is_one_at_one, line_value_is_one_at_zero]

theorem countP_line_value_is_one_smts (cn sn mn : String) (pvs : List String) (v : String) :
    (service_state_metric_to_strings cn sn mn pvs v).countP line_value_is_one
      = pvs.countP (fun pv => v == pv) := by
  unfold service_state_metric_to_strings
  rw [List.countP_map]
  apply List.countP_congr
  intro pv _
  cases hv : v == pv <;>
    simp [Function.comp, hv, line_value_is_one_at_one, line_value_is_one_at_zero]

theorem countP_line_value_is_zero_smts (cn sn mn : String) (pvs : List String) (v : String) :
    (service_state_metric_to_strings cn sn mn pvs v).countP line_value_is_zero
      = pvs.countP (fun pv => !(v == pv)) := by
  unfold service_state_metric_to_strings
  rw [List.countP_map]
  apply List.countP_congr
  intro pv _
  cases hv : v == pv <;>
    simp [Function.comp, hv, line_value_is_zero_at_zero, line_value_is_zero_at_one]

theorem countP_not_eq_length_sub {α : Type} (p : α → Bool) (l : List α) :
    l.countP (fun a => !(p a)) = l.length - l.countP p := by
  induction l with
  | nil => rfl
  | cons a t ih =>
    have hle := List.countP_le_length (p := p) (l := t)
    cases h : p a
    all_goals simp [List.countP_cons, h, ih]
    all_goals omega

theorem find_container_of_no_match (running : List Container) (name : String)
    (h : ∀ c ∈ running, c.name ≠ name) : find_container running name = none :=
  List.find?_eq_none.mpr (fun c hc => by simp [h c hc])

theorem effective_state_of_no_match (running : List Container) (name : String)
    (h : ∀ c ∈ running, c.name ≠ name) : effective_state running name = STATE_NOT_UP := by
  unfold effective_state
  rw [find_container_of_no_match running name h]

theorem effective_health_of_no_match (running : List Container) (name : String)
    (h : ∀ c ∈ running, c.name ≠ name) : effective_health running name = STATE_NOT_UP := by
  unfold effective_health
  rw [find_container_of_no_match running name h]

theorem effective_state_of_match (running : List Container) (name : String) (c : Container)
    (h : find_container running name = some c) : effective_state running name = c.state := by
  unfold effective_state
  rw [h]

theorem effective_health_of_match_empty (running : List Container) (name : String) (c : Container)
    (h : find_container running name = some c) (hh : c.health = "") :
    effective_health running name = STATE_HEALTH_NO_CHECK := by
  unfold effective_health
  rw [h]
  simp [hh, STATE_HEALTH_NO_CHECK]

theorem trailing_newline_count_of_shape (s : String) (t : List Char) (D : List Char)
    (hD : D ≠ []) (hDn : ∀ c ∈ D, c ≠ '\n')
    (h : s.data = t ++ D ++ ['\n', '\n']) :
    trailing_newline_count s = 2 := by
  unfold trailing_newline_count
  rw [h]
  cases hrev : D.reverse with
  | nil => exact absurd (by simpa using hrev) hD
  | cons d D2 =>
    have hd : d ≠ '\n' := hDn d (by rw [← List.mem_reverse, hrev]; exact .head _)
    simp [List.reverse_append, hrev, List.takeWhile_cons, hd]

/- ## Per-service one-hot lemmas shared by several claims -/

theorem service_metric_lines_map_no_match (cn sn : String) (svc : ComposeService)
    (running : List Container) (h : ∀ c ∈ running, c.name ≠ svc.container_name) :
    (service_metric_lines cn sn svc running).map line_value_is_one
      = ([true, false, false, false, false]
          ++ [true, false, false, false, false, false, false, false]) := by
  unfold service_metric_lines
  rw [List.map_append, map_line_value_is_one_smts, map_line_value_is_one_smts,
    effective_state_of_no_match running svc.container_name h,
    effective_health_of_no_match running svc.container_name h]
  decide

theorem service_metric_lines_length (cn sn : String) (svc : ComposeService)
    (running : List Container) : (service_metric_lines cn sn svc running).length = 13 := by
  unfold service_metric_lines service_state_metric_to_strings
  simp [POSSIBLE_STATES_STATE, POSSIBLE_STATES_HEALTH]

theorem flatMap_service_metric_lines_length (n : String) (running : List Container)
    (l : List (String × ComposeService)) :
    (l.flatMap (fun p => service_metric_lines n p.1 p.2 running)).length = l.length * 13 := by
  induction l with
  | nil => rfl
  | cons a t ih =>
    simp only [List.flatMap_cons, List.length_append, List.length_cons, ih,
      service_metric_lines_length]
    ring

theorem smts_countP_of_mem (cn sn mn : String) (pvs : List String) (v : String)
    (hnd : pvs.Nodup) (hv : v ∈ pvs) :
    (service_state_metric_to_strings cn sn mn pvs v).countP line_value_is_one = 1
    ∧ (service_state_metric_to_strings cn sn mn pvs v).countP line_value_is_zero
        = pvs.length - 1 := by
  have hsymm : pvs.countP (fun pv => v == pv) = pvs.count v := by
    rw [List.count_eq_countP]
    exact List.countP_congr (fun x _ => by simp only [beq_iff_eq]; exact eq_comm)
  have hone : pvs.count v = 1 := List.count_eq_one_of_mem hnd hv
  constructor
  · rw [countP_line_value_is_one_smts, hsymm, hone]
  · rw [countP_line_value_is_zero_smts, countP_not_eq_length_sub, hsymm, hone]

/- ## The claims -/

/-- C1 (amended): for every compose name, service name, declared service and
runtime container list, whenever the effective state value lies among the 8
possible state values, the emitted state dimension has exactly one line with
value 1 and 7 lines with value 0; and whenever the effective health value lies
among the 5 possible health values, the emitted health dimension has exactly
one line with value 1 and 4 lines with value 0.  (The original claim, which
quantified over arbitrary runtime container lists without restricting the
reported state and health strings, is refuted by
`one_hot_mutual_exclusivity_counterexample`.) -/
theorem one_hot_mutual_exclusivity (cn sn : String) (svc : ComposeService)
    (running : List Container) :
    ((effective_state running svc.container_name ∈ POSSIBLE_STATES_STATE) →
      (service_state_metric_to_strings cn sn "state" POSSIBLE_STATES_STATE
          (effective_state running svc.container_name)).countP line_value_is_one = 1
      ∧ (service_state_metric_to_strings cn sn "state" POSSIBLE_STATES_STATE
          (effective_state running svc.container_name)).countP line_value_is_zero = 7)
    ∧ ((effective_health running svc.container_name ∈ POSSIBLE_STATES_HEALTH) →
      (service_state_metric_to_strings cn sn "health" POSSIBLE_STATES_HEALTH
          (effective_health running svc.container_name)).countP line_value_is_one = 1
      ∧ (service_state_metric_to_strings cn sn "health" POSSIBLE_STATES_HEALTH
          (effective_health running svc.container_name)).countP line_value_is_zero = 4) := by
  constructor
  · intro hs
    exact smts_countP_of_mem cn sn "state" POSSIBLE_STATES_STATE _ (by decide) hs
  · intro hh
    exact smts_countP_of_mem cn sn "health" POSSIBLE_STATES_HEALTH _ (by decide) hh

/-- C1 witness: the amended mutual-exclusivity theorem applied to a concrete
running/healthy container. -/
theorem one_hot_mutual_exclusivity_witness :
    (effective_state [⟨"c1", "running", "healthy"⟩] "c1" ∈ POSSIBLE_STATES_STATE
      ∧ (service_state_metric_to_strings "app" "web" "state" POSSIBLE_STATES_STATE
          (effective_state [⟨"c1", "running", "healthy"⟩] "c1")).countP line_value_is_one = 1)
    ∧ (effective_health [⟨"c1", "running", "healthy"⟩] "c1" ∈ POSSIBLE_STATES_HEALTH
      ∧ (service_state_metric_to_strings "app" "web" "health" POSSIBLE_STATES_HEALTH
          (effective_health [⟨"c1", "running", "healthy"⟩] "c1")).countP line_value_is_one = 1) :=
  ⟨⟨by decide,
    ((one_hot_mutual_exclusivity "app" "web" ⟨"c1"⟩ [⟨"c1", "running", "healthy"⟩]).1
      (by decide)).1⟩,
   ⟨by decide,
    ((one_hot_mutual_exclusivity "app" "web" ⟨"c1"⟩ [⟨"c1", "running", "healthy"⟩]).2
      (by decide)).1⟩⟩

/-- C1 counterexample: with a runtime container whose reported state is the
unrecognized string "bogus", the emitted state dimension has NO line with
value 1, so the original unconditional mutual-exclusivity claim is false. -/
theorem one_hot_mutual_exclusivity_counterexample :
    ¬ ((service_state_metric_to_strings "app" "web" "state" POSSIBLE_STATES_STATE
        (effective_state [⟨"c1", "bogus", ""⟩] "c1")).countP line_value_is_one = 1) := by
  decide

/-- C2: a declared service whose configured container name matches no runtime
container gets, in its emitted block (5 health lines followed by 8 state
lines), the health one-hot with value 1 exactly at `not_up` (index 0 of the 5
health values) and the state one-hot with value 1 exactly at `not_up` (index 0
of the 8 state values); every other line has value 0. -/
theorem missing_container_one_hot_not_up (cn sn : String) (svc : ComposeService)
    (running : List Container) (h : ∀ c ∈ running, c.name ≠ svc.container_name) :
    (service_metric_lines cn sn svc running).map line_value_is_one
      = ([true, false, false, false, false]
          ++ [true, false, false, false, false, false, false, false]) :=
  service_metric_lines_map_no_match cn sn svc running h

/-- C2 witness: concrete instance with one non-matching runtime container. -/
theorem missing_container_one_hot_not_up_witness :
    (∀ c ∈ ([⟨"other", "running", ""⟩] : List Container), c.name ≠ "shop_web_1")
    ∧ (service_metric_lines "shop" "web" ⟨"shop_web_1"⟩
        [⟨"other", "running", ""⟩]).map line_value_is_one
      = ([true, false, false, false, false]
          ++ [true, false, false, false, false, false, false, false]) :=
  ⟨by decide,
   missing_container_one_hot_not_up "shop" "web" ⟨"shop_web_1"⟩
     [⟨"other", "running", ""⟩] (by decide)⟩

/-- C3 (code-bug evidence): a matched container reporting the unrecognized
state "bogus" does NOT surface any error.  The derivation is a total function
that emits a normal, full-size metric block in which every line of the state
dimension has value 0 (in particular the `not_up` line as well), silently
swallowing the mapping defect instead of surfacing it as the spec requires. -/
theorem unrecognized_state_silently_swallowed :
    (service_state_metric_to_strings "app" "web" "state" POSSIBLE_STATES_STATE
        (effective_state [⟨"c1", "bogus", ""⟩] "c1")).countP line_value_is_one = 0
    ∧ (service_state_metric_to_strings "app" "web" "state" POSSIBLE_STATES_STATE
        (effective_state [⟨"c1", "bogus", ""⟩] "c1")).countP line_value_is_zero = 8
    ∧ (config_and_containers_to_metric_lines ⟨"app", [("web", ⟨"c1"⟩)]⟩
        [⟨"c1", "bogus", ""⟩]).length = 13 :=
  ⟨by decide, by decide, by decide⟩

/-- C4: for every application definition with S declared services and every
runtime container list, the per-application block has exactly S * 13 metric
lines; and when no declared service has a matching runtime container every
per-service block is the `not_up` one-hot in both dimensions (value 1 exactly
at the `not_up` line of each dimension, 0 elsewhere). -/
theorem fixed_line_count_per_service (cfg : ComposeConfig) (running : List Container) :
    (config_and_containers_to_metric_lines cfg running).length = cfg.services.length * 13
    ∧ ((∀ p ∈ cfg.services, ∀ c ∈ running, c.name ≠ p.2.container_name) →
        ∀ p ∈ cfg.services,
          (service_metric_lines cfg.name p.1 p.2 running).map line_value_is_one
            = ([true, false, false, false, false]
                ++ [true, false, false, false, false, false, false, false])) := by
  constructor
  · exact flatMap_service_metric_lines_length cfg.name running cfg.services
  · intro h p hp
    exact service_metric_lines_map_no_match cfg.name p.1 p.2 running (h p hp)

/-- C4 witness: one declared service, empty runtime container list. -/
theorem fixed_line_count_per_service_witness :
    (config_and_containers_to_metric_lines ⟨"app", [("web", ⟨"c1"⟩)]⟩ []).length = 1 * 13
    ∧ (∀ p ∈ ([("web", (⟨"c1"⟩ : ComposeService))] : List (String × ComposeService)),
        ∀ c ∈ ([] : List Container), c.name ≠ p.2.container_name)
    ∧ (service_metric_lines "app" "web" ⟨"c1"⟩ []).map line_value_is_one
      = ([true, false, false, false, false]
          ++ [true, false, false, false, false, false, false, false]) :=
  ⟨(fixed_line_count_per_service ⟨"app", [("web", ⟨"c1"⟩)]⟩ []).1,
   by decide,
   (fixed_line_count_per_service ⟨"app", [("web", ⟨"c1"⟩)]⟩ []).2 (by decide)
     ("web", ⟨"c1"⟩) (by decide)⟩

/-- C5: a declared service matched to a runtime container with state "running"
and an empty health string gets, in its emitted block (5 health lines followed
by 8 state lines), the health one-hot with value 1 exactly at `no_check`
(index 1 of the 5 health values) and the state one-hot with value 1 exactly at
`running` (index 3 of the 8 state values). -/
theorem running_empty_health_one_hot (cn sn : String) (svc : ComposeService)
    (running : List Container) (c : Container)
    (hfind : find_container running svc.container_name = some c)
    (hstate : c.state = "running") (hhealth : c.health = "") :
    (service_metric_lines cn sn svc running).map line_value_is_one
      = ([false, true, false, false, false]
          ++ [false, false, false, true, false, false, false, false]) := by
  unfold service_metric_lines
  rw [List.map_append, map_line_value_is_one_smts, map_line_value_is_one_smts,
    effective_state_of_match running svc.container_name c hfind,
    effective_health_of_match_empty running svc.container_name c hfind hhealth, hstate]
  decide

/-- C5 witness: concrete matched container with state "running", health "". -/
theorem running_empty_health_one_hot_witness :
    (find_container [⟨"c1", "running", ""⟩] "c1" = some ⟨"c1", "running", ""⟩
      ∧ (Container.state ⟨"c1", "running", ""⟩ = "running")
      ∧ (Container.health ⟨"c1", "running", ""⟩ = ""))
    ∧ (service_metric_lines "app" "web" ⟨"c1"⟩ [⟨"c1", "running", ""⟩]).map line_value_is_one
      = ([false, true, false, false, false]
          ++ [false, false, false, true, false, false, false, false]) :=
  ⟨⟨by decide, rfl, rfl⟩,
   running_empty_health_one_hot "app" "web" ⟨"c1"⟩ [⟨"c1", "running", ""⟩]
     ⟨"c1", "running", ""⟩ (by decide) rfl rfl⟩

/-- C6: with the built-in default port 9179 and a user config file setting
port 9000, an omitted port CLI argument resolves to 9000 (the CLI default does
not clobber the file value, because default-sourced CLI fields are only
`join`ed, not `merge`d), while an explicit CLI port 8000 resolves to 8000. -/
theorem config_port_precedence :
    (get_config ⟨none, some 9000, none⟩ ⟨none, none, none⟩ ⟨none, none, none⟩
        ⟨none, none, none⟩).map Config.port = some 9000
    ∧ (get_config ⟨none, some 9000, none⟩ ⟨none, none, none⟩ ⟨none, none, none⟩
        ⟨none, some 8000, none⟩).map Config.port = some 8000 :=
  ⟨rfl, rfl⟩

/-- C7 counterexample: a glob-matched entry that is neither a file nor a
directory makes the scrape derivation panic; the handler result is the panic
propagating, not the 500 internal-server-error response of the `Err` branch,
so the original claim that the HTTP response is a 500 is false. -/
theorem locator_panic_counterexample :
    get_metrics_for_config_globs [⟨"/cfg/broken", FsKind.other⟩] (fun _ => Except.error "err")
      = ScrapeOutcome.panicked ("Invalid path: " ++ "/cfg/broken")
    ∧ handle_metrics_request [⟨"/cfg/broken", FsKind.other⟩] (fun _ => Except.error "err")
      ≠ HttpResponse.internalServerError "Internal server error. Check logs for details." :=
  ⟨rfl, by decide⟩

/-- C7 (amended): if any glob-matched filesystem entry is neither a regular
file nor a directory, the whole scrape derivation aborts with a panic — no
best-effort partial skipping, and no partial metrics body is produced — but
the abort is a panic that bypasses the error branch of the request handler
(which would produce the 500 response), rather than a recoverable error. -/
theorem locator_panic_aborts_scrape (entries : List FsEntry)
    (lookup : String → Except String (ComposeConfig × List Container))
    (h : ∃ e ∈ entries, e.kind = FsKind.other) :
    ∃ msg, handle_metrics_request entries lookup = HttpResponse.panicked msg := by
  obtain ⟨msg, hg⟩ : ∃ msg, config_paths_from_globs entries = .panicked msg := by
    clear lookup
    induction entries with
    | nil => simp at h
    | cons e rest ih =>
      rcases h with ⟨x, hx, hk⟩
      rcases List.mem_cons.mp hx with rfl | hmem
      · refine ⟨"Invalid path: " ++ x.path, ?_⟩
        unfold config_paths_from_globs
        rw [hk]
      · cases he : e.kind with
        | other =>
          refine ⟨"Invalid path: " ++ e.path, ?_⟩
          unfold config_paths_from_globs
          rw [he]
        | dir =>
          obtain ⟨m, hm⟩ := ih ⟨x, hmem, hk⟩
          refine ⟨m, ?_⟩
          unfold config_paths_from_globs
          rw [he, hm]
        | file =>
          obtain ⟨m, hm⟩ := ih ⟨x, hmem, hk⟩
          refine ⟨m, ?_⟩
          unfold config_paths_from_globs
          rw [he, hm]
  refine ⟨msg, ?_⟩
  unfold handle_metrics_request get_metrics_for_config_globs
  rw [hg]

/-- C7 witness: one broken-symlink-like entry. -/
theorem locator_panic_aborts_scrape_witness :
    (∃ e ∈ ([⟨"/cfg/broken", FsKind.other⟩] : List FsEntry), e.kind = FsKind.other)
    ∧ ∃ msg, handle_metrics_request [⟨"/cfg/broken", FsKind.other⟩]
        (fun _ => Except.error "err") = HttpResponse.panicked msg :=
  ⟨⟨⟨"/cfg/broken", FsKind.other⟩, by simp, rfl⟩,
   locator_panic_aborts_scrape [⟨"/cfg/broken", FsKind.other⟩] (fun _ => Except.error "err")
     ⟨⟨"/cfg/broken", FsKind.other⟩, by simp, rfl⟩⟩

/-- C8 counterexample: the rendered output never declares the family
`compose_service_state` at all (no such TYPE line exists in the output), while
a TYPE line for `compose_service_up` does appear — so the original claim that
the output begins with HELP/TYPE declarations for `compose_service_state` is
false. -/
theorem renderer_families_counterexample :
    ¬ ("# TYPE compose_service_state gauge" ∈ body_lines (get_metrics_for_configs_paths []))
    ∧ "# TYPE compose_service_up gauge" ∈ body_lines (get_metrics_for_configs_paths []) :=
  ⟨by decide, by decide⟩

/-- C8 (amended): on every successful scrape the rendered output begins with
the fixed HELP/TYPE comment lines declaring `compose_service_up` and
`compose_service_health` (both as gauges) ahead of the per-application body,
and the HELP/TYPE gauge declaration of `compose_apps_nbro_configs` is emitted
after the body, immediately before its sample line at the very end. -/
theorem renderer_header_structure (apps : List (ComposeConfig × List Container)) :
    (∃ rest : String,
        get_metrics_for_configs_paths apps
          = "# HELP compose_service_up Whether the docker compose services\x27s status is \x27Up\x27 (as opposed to e.g. \x27Restarting\x27)\n# TYPE compose_service_up gauge\n# HELP compose_service_health Whether the docker compose services\x27s health is \x27healthy\x27\n# TYPE compose_service_health gauge\n"
            ++ rest)
    ∧ (∃ pre : String,
        get_metrics_for_configs_paths apps
          = pre
            ++ ("# HELP compose_apps_nbro_configs Number of docker-compose apps\n# TYPE compose_apps_nbro_configs gauge\ncompose_apps_nbro_configs "
              ++ toString apps.length ++ "\n")) := by
  constructor
  · refine ⟨String.intercalate "\n"
        (apps.map (fun app => config_and_containers_to_metrics app.1 app.2))
      ++ "\n" ++ nbro_configs_metric apps.length, ?_⟩
    simp [get_metrics_for_configs_paths, config_metrics_comment, String.append_assoc]
  · refine ⟨config_metrics_comment ++ String.intercalate "\n"
        (apps.map (fun app => config_and_containers_to_metrics app.1 app.2)) ++ "\n", ?_⟩
    simp [get_metrics_for_configs_paths, nbro_configs_metric, String.append_assoc]

/-- C8 witness: the amended structure theorem at the empty application list. -/
theorem renderer_header_structure_witness :
    (∃ rest : String,
        get_metrics_for_configs_paths []
          = "# HELP compose_service_up Whether the docker compose services\x27s status is \x27Up\x27 (as opposed to e.g. \x27Restarting\x27)\n# TYPE compose_service_up gauge\n# HELP compose_service_health Whether the docker compose services\x27s health is \x27healthy\x27\n# TYPE compose_service_health gauge\n"
            ++ rest)
    ∧ (∃ pre : String,
        get_metrics_for_configs_paths []
          = pre
            ++ ("# HELP compose_apps_nbro_configs Number of docker-compose apps\n# TYPE compose_apps_nbro_configs gauge\ncompose_apps_nbro_configs "
              ++ toString (List.length ([] : List (ComposeConfig × List Container))) ++ "\n")) :=
  renderer_header_structure []

/-- C9 counterexample: for the concrete scrape with zero applications the HTTP
response body ends with exactly two newline characters, so the original claim
of exactly one trailing newline is false (the rendered metrics already end in
a newline and the handler pushes another one). -/
theorem response_trailing_newlines_counterexample :
    trailing_newline_count (metrics_response_body []) = 2 := by
  decide

/-- C9 (amended): on every successful scrape the HTTP response body for
`GET /metrics` ends with exactly two trailing newline characters (not one):
the rendered output of the aggregator already ends with one newline and the
handler unconditionally appends a second one. -/
theorem response_ends_with_two_newlines (apps : List (ComposeConfig × List Container)) :
    trailing_newline_count (metrics_response_body apps) = 2 := by
  apply trailing_newline_count_of_shape _
    ((config_metrics_comment
        ++ String.intercalate "\n"
          (apps.map (fun app => config_and_containers_to_metrics app.1 app.2))
        ++ "\n"
        ++ "# HELP compose_apps_nbro_configs Number of docker-compose apps\n# TYPE compose_apps_nbro_configs gauge\ncompose_apps_nbro_configs ").data)
    (Nat.toDigits 10 apps.length)
    (toDigits_ne_nil _)
    (toDigits_mem_ne_newline _)
  simp [metrics_response_body, get_metrics_for_configs_paths, nbro_configs_metric,
    String.data_append, toString_nat_data, List.append_assoc,
    show ("\n" : String).data = ['\n'] from rfl]

/-- C9 witness: the amended trailing-newline theorem at a concrete single-app
input. -/
theorem response_ends_with_two_newlines_witness :
    trailing_newline_count (metrics_response_body [(⟨"app", [("web", ⟨"c1"⟩)]⟩, [])]) = 2 :=
  response_ends_with_two_newlines [(⟨"app", [("web", ⟨"c1"⟩)]⟩, [])]

/-- C10: when the configured globs match zero filesystem entries the scrape
derivation succeeds (no error), and the produced body contains the four
preamble comment lines and the `compose_apps_nbro_configs 0` gauge line, while
containing no per-service metric line of either family. -/
theorem empty_glob_matches_scrape_succeeds
    (lookup : String → Except String (ComposeConfig × List Container)) :
    get_metrics_for_config_globs [] lookup
      = ScrapeOutcome.success (get_metrics_for_configs_paths [])
    ∧ "# HELP compose_service_up Whether the docker compose services\x27s status is \x27Up\x27 (as opposed to e.g. \x27Restarting\x27)"
        ∈ body_lines (get_metrics_for_configs_paths [])
    ∧ "# TYPE compose_service_up gauge" ∈ body_lines (get_metrics_for_configs_paths [])
    ∧ "# HELP compose_service_health Whether the docker compose services\x27s health is \x27healthy\x27"
        ∈ body_lines (get_metrics_for_configs_paths [])
    ∧ "# TYPE compose_service_health gauge" ∈ body_lines (get_metrics_for_configs_paths [])
    ∧ "compose_apps_nbro_configs 0" ∈ body_lines (get_metrics_for_configs_paths [])
    ∧ (body_lines (get_metrics_for_configs_paths [])).all
        (fun l => !(line_starts_with l "compose_service_state\x7b"
          || line_starts_with l "compose_service_health\x7b")) = true :=
  ⟨rfl, by decide, by decide, by decide, by decide, by decide, by decide⟩

/-- C10 witness: the zero-match theorem at a concrete lookup function. -/
theorem empty_glob_matches_scrape_succeeds_witness :
    get_metrics_for_config_globs [] (fun _ => Except.error "unused")
      = ScrapeOutcome.success (get_metrics_for_configs_paths [])
    ∧ "compose_apps_nbro_configs 0" ∈ body_lines (get_metrics_for_configs_paths []) :=
  ⟨(empty_glob_matches_scrape_succeeds (fun _ => Except.error "unused")).1,
   (empty_glob_matches_scrape_succeeds (fun _ => Except.error "unused")).2.2.2.2.2.1⟩
